import Mathlib

/-!
Verification of the VisionSafe PPE-compliance core.

Shallow embedding of:
* `visionsafe/backend/violations.py` — strike state machine (`update_strikes`,
  `is_fired`, `reset_worker`, `get_worker_status`);
* `visionsafe/backend/ppe_detection.py` — missing-gear derivation
  (`get_missing_gear`, `is_associated`, `calculate_iou`);
* the legacy helper `get_missing_gear` of `app_final.py`;
* `record_violation` of `visionsafe/backend/database.py` and the
  per-person step of the live-monitor tick (`visionsafe/pages/live_monitor.py`).

Modelling conventions: Python floats (box coordinates, `time.time()`
timestamps, the cooldown) are embedded as `ℚ`; Python ints as `Int`.
The missing-item names that actually flow through the system are the four
strings "Vest", "Gloves", "Shoes", "Headgear"; they are embedded as the
inductive type `Item`, whose constructor ranks reproduce Python's
lexicographic string order ("Gloves" < "Headgear" < "Shoes" < "Vest").
Python's `sorted` on such lists is embedded as a stable insertion sort by
that order. Gear labels produced by `class_mapping` (the six known names
plus the synthesised default label built from the class id) are embedded
as the inductive type `Gear`, where `Gear.ClassOther c` stands for the
string built from the otherwise-unknown class id `c`; distinct ids give
distinct labels and none of them collides with the six known names, which
is exactly the situation in the source. Mutation of the Python worker dict
is embedded as explicit state passing: each mutating function returns the
updated record.
-/

/-- The four required-PPE item names, in Python string order:
"Gloves" < "Headgear" < "Shoes" < "Vest". -/
inductive Item where
  | Gloves
  | Headgear
  | Shoes
  | Vest
deriving DecidableEq, Repr

/-- Position of an item name in Python's lexicographic string order. -/
def Item.rank : Item → Nat
  | .Gloves => 0
  | .Headgear => 1
  | .Shoes => 2
  | .Vest => 3

/-- The order Python's `sorted` uses on the item-name strings. -/
def itemLe (a b : Item) : Prop := a.rank ≤ b.rank

instance : DecidableRel itemLe := fun a b => Nat.decLe a.rank b.rank

/-- Embedding of Python's `sorted` on lists of item names (stable,
ascending by lexicographic string order). -/
def pySorted (l : List Item) : List Item := l.insertionSort itemLe

/-- The rendered string of an item name, as used by `record_violation`'s
`", ".join(missing_items)`. -/
def Item.name : Item → String
  | .Gloves => "Gloves"
  | .Headgear => "Headgear"
  | .Shoes => "Shoes"
  | .Vest => "Vest"

/-- Worker record of the violations module: the dict with keys
`strikes`, `last_violation`, `last_strike_time`. -/
structure Worker where
  strikes : Int
  last_violation : List Item
  last_strike_time : ℚ
deriving DecidableEq, Repr

namespace Violations

/-- `update_strikes` of `visionsafe/backend/violations.py`. The Python
function reads `time.time()`; here `now` is an explicit argument. The
source's default `cooldown` is `5.0`. Returns the updated worker record
together with the boolean result. -/
def update_strikes (worker : Worker) (missing_items : List Item)
    (now : ℚ) (cooldown : ℚ) : Worker × Bool :=
  let current_signature := pySorted missing_items
  let last_signature := worker.last_violation
  let is_new_violation : Prop := current_signature ≠ last_signature
  let cooldown_expired : Prop := now - worker.last_strike_time > cooldown
  let has_violations : Prop := missing_items.length > 0
  if has_violations ∧ is_new_violation ∧ cooldown_expired then
    ({ strikes := worker.strikes + 1
       last_violation := current_signature
       last_strike_time := now }, true)
  else if ¬ has_violations then
    ({ worker with last_violation := [] }, false)
  else
    (worker, false)

/-- `is_fired` of `visionsafe/backend/violations.py`; the source's default
`max_strikes` is `15`. -/
def is_fired (strikes : Int) (max_strikes : Int) : Bool :=
  strikes ≥ max_strikes

/-- `reset_worker` of `visionsafe/backend/violations.py`. -/
def reset_worker (worker : Worker) : Worker :=
  { worker with strikes := 0, last_violation := [], last_strike_time := 0 }

/-- `get_worker_status` of `visionsafe/backend/violations.py`:
`(status_color, status_label, is_fired)`. -/
def get_worker_status (worker : Worker) (missing_items : List Item)
    (max_strikes : Int) : (Nat × Nat × Nat) × String × Bool :=
  if worker.strikes ≥ max_strikes then
    ((0, 0, 255), "FIRED!", true)
  else if missing_items.length > 0 then
    ((0, 165, 255), "UNSAFE", false)
  else
    ((0, 255, 0), "SAFE", false)

/-- Folding a sequence of evaluation ticks (missing set, timestamp) through
`update_strikes`, keeping only the worker state. -/
def run_ticks (worker : Worker) (ticks : List (List Item × ℚ))
    (cooldown : ℚ) : Worker :=
  ticks.foldl (fun w t => (update_strikes w t.1 t.2 cooldown).1) worker

end Violations

/-- An axis-aligned bounding box `[x1, y1, x2, y2]`, coordinates as `ℚ`. -/
structure Box where
  x1 : ℚ
  y1 : ℚ
  x2 : ℚ
  y2 : ℚ
deriving DecidableEq, Repr

/-- Gear labels of `visionsafe/backend/ppe_detection.py`: the six names of
`class_mapping` plus the synthesised default label for any other class id
(the string built from the id; distinct ids give distinct labels, none
equal to a known name). -/
inductive Gear where
  | Helmet
  | WeldingHelmet
  | Goggles
  | Vest
  | Gloves
  | Shoes
  | ClassOther (c : Int)
deriving DecidableEq, Repr

namespace PPE

/-- The `class_mapping` dict lookup with its default
(`class_mapping.get(int(ppe_class), f"Class_{ppe_class}")`). -/
def class_mapping (c : Int) : Gear :=
  if c = 1 then .Helmet
  else if c = 2 then .WeldingHelmet
  else if c = 3 then .Goggles
  else if c = 4 then .Vest
  else if c = 5 then .Gloves
  else if c = 6 then .Shoes
  else .ClassOther c

/-- `calculate_iou`, split: the clamped intersection area. -/
def inter_area (box1 box2 : Box) : ℚ :=
  let x1 := max box1.x1 box2.x1
  let y1 := max box1.y1 box2.y1
  let x2 := min box1.x2 box2.x2
  let y2 := min box1.y2 box2.y2
  max 0 (x2 - x1) * max 0 (y2 - y1)

/-- `calculate_iou`, split: `area1 + area2 - intersection`. -/
def union_area (box1 box2 : Box) : ℚ :=
  (box1.x2 - box1.x1) * (box1.y2 - box1.y1)
    + (box2.x2 - box2.x1) * (box2.y2 - box2.y1)
    - inter_area box1 box2

/-- `calculate_iou` of `visionsafe/backend/ppe_detection.py`:
`intersection / union if union > 0 else 0`. -/
def calculate_iou (box1 box2 : Box) : ℚ :=
  if union_area box1 box2 > 0 then inter_area box1 box2 / union_area box1 box2
  else 0

/-- `is_associated` of `visionsafe/backend/ppe_detection.py`: per-class
spatial rule deciding whether a PPE item box belongs to a person box. -/
def is_associated (person_box item_box : Box) (item_class : Int) : Prop :=
  let px1 := person_box.x1
  let py1 := person_box.y1
  let px2 := person_box.x2
  let py2 := person_box.y2
  let person_height := py2 - py1
  let cx := (item_box.x1 + item_box.x2) / 2
  let cy := (item_box.y1 + item_box.y2) / 2
  if item_class = 1 ∨ item_class = 2 then
    let top_third := py1 + person_height / 3
    py1 ≤ cy ∧ cy ≤ top_third ∧ px1 ≤ cx ∧ cx ≤ px2
  else if item_class = 6 then
    let bottom_fifth := py2 - person_height / 5
    bottom_fifth ≤ cy ∧ cy ≤ py2 ∧ px1 ≤ cx ∧ cx ≤ px2
  else if item_class = 3 then
    let upper_middle := py1 + person_height * (2 / 5)
    py1 ≤ cy ∧ cy ≤ upper_middle ∧ px1 ≤ cx ∧ cx ≤ px2
  else if item_class = 4 then
    let torso_top := py1 + person_height * (1 / 5)
    let torso_bottom := py1 + person_height * (7 / 10)
    torso_top ≤ cy ∧ cy ≤ torso_bottom ∧ px1 ≤ cx ∧ cx ≤ px2
  else if item_class = 5 then
    calculate_iou person_box item_box > 1 / 10
  else
    px1 ≤ cx ∧ cx ≤ px2 ∧ py1 ≤ cy ∧ cy ≤ py2

instance (p i : Box) (c : Int) : Decidable (is_associated p i c) := by
  unfold is_associated
  exact inferInstance

/-- The gear set accumulated by the association loop of
`get_missing_gear` (Python set, used only through membership; modelled as
the list of labels added). -/
def detected_gear (person_box : Box) (pairs : List (Box × Int)) : List Gear :=
  pairs.filterMap fun pr =>
    if is_associated person_box pr.1 pr.2 then some (class_mapping pr.2)
    else none

/-- The missing-list construction of `get_missing_gear`: the
`required_ppe` loop appends Vest, Gloves, Shoes in dict order, then the
head-protection check appends Headgear. -/
def missing_from (detected : List Gear) : List Item :=
  (if Gear.Vest ∈ detected then [] else [Item.Vest])
    ++ (if Gear.Gloves ∈ detected then [] else [Item.Gloves])
    ++ (if Gear.Shoes ∈ detected then [] else [Item.Shoes])
    ++ (if Gear.Helmet ∈ detected ∨ Gear.WeldingHelmet ∈ detected
          ∨ Gear.Goggles ∈ detected then [] else [Item.Headgear])

/-- `get_missing_gear` of `visionsafe/backend/ppe_detection.py`. The two
array arguments are zipped exactly as in the source. -/
def get_missing_gear (person_box : Box) (ppe_boxes : List Box)
    (ppe_classes : List Int) : List Item :=
  missing_from (detected_gear person_box (ppe_boxes.zip ppe_classes))

end PPE

namespace Legacy

/-- The association loop of the legacy `get_missing_gear` of
`app_final.py`: one uniform rule — the item's center strictly inside the
person box — and only class ids 1–6 add a label (other ids are ignored by
the if/elif chain). -/
def legacy_detected_gear (person_box : Box) (pairs : List (Box × Int)) :
    List Gear :=
  pairs.filterMap fun pr =>
    let center_x := (pr.1.x1 + pr.1.x2) / 2
    let center_y := (pr.1.y1 + pr.1.y2) / 2
    if person_box.x1 < center_x ∧ center_x < person_box.x2
        ∧ person_box.y1 < center_y ∧ center_y < person_box.y2 then
      if pr.2 = 1 then some .Helmet
      else if pr.2 = 2 then some .WeldingHelmet
      else if pr.2 = 3 then some .Goggles
      else if pr.2 = 4 then some .Vest
      else if pr.2 = 5 then some .Gloves
      else if pr.2 = 6 then some .Shoes
      else none
    else none

/-- The missing-list construction of the legacy `get_missing_gear`:
same append order (Vest, Gloves, Shoes, then Headgear). -/
def legacy_missing_from (detected : List Gear) : List Item :=
  (if Gear.Vest ∈ detected then [] else [Item.Vest])
    ++ (if Gear.Gloves ∈ detected then [] else [Item.Gloves])
    ++ (if Gear.Shoes ∈ detected then [] else [Item.Shoes])
    ++ (if Gear.Helmet ∈ detected ∨ Gear.WeldingHelmet ∈ detected
          ∨ Gear.Goggles ∈ detected then [] else [Item.Headgear])

/-- The legacy `get_missing_gear` of `app_final.py`. -/
def get_missing_gear (person_box : Box) (ppe_boxes : List Box)
    (ppe_classes : List Int) : List Item :=
  legacy_missing_from (legacy_detected_gear person_box
    (ppe_boxes.zip ppe_classes))

end Legacy

/-- A violation record as built by `record_violation` of
`visionsafe/backend/database.py`. -/
structure ViolationRecord where
  time : String
  id : String
  violation : String
  strikes : Int
  evidence : String
deriving DecidableEq, Repr

/-- `record_violation` of `visionsafe/backend/database.py`. The Python
function reads `datetime.now()`; here the formatted timestamp `now_str`
is an explicit argument. -/
def record_violation (worker_id : Int) (missing_items : List Item)
    (strikes : Int) (evidence_path : Option String) (now_str : String) :
    ViolationRecord :=
  { time := now_str
    id := "Worker-" ++ toString worker_id
    violation := String.intercalate ", " (missing_items.map Item.name)
    strikes := strikes
    evidence := evidence_path.getD "" }

/-- The per-person step of the live-monitor tick
(`visionsafe/pages/live_monitor.py`): call `update_strikes`, and create a
violation record exactly when it returned true. Snapshot saving is
abstracted into the `evidence_path` argument. -/
def monitor_tick (worker : Worker) (missing_items : List Item)
    (now : ℚ) (cooldown : ℚ) (worker_id : Int)
    (evidence_path : Option String) (now_str : String) :
    Worker × Option ViolationRecord :=
  let res := Violations.update_strikes worker missing_items now cooldown
  if res.2 then
    (res.1, some (record_violation worker_id missing_items
      res.1.strikes evidence_path now_str))
  else
    (res.1, none)

/-! ## Helper lemmas about the strike state machine -/

/-- Sorting never turns a non-empty missing list into an empty one. -/
lemma pySorted_ne_nil {m : List Item} (hm : m ≠ []) : pySorted m ≠ [] := by
  intro hc
  apply hm
  have h2 : (pySorted m).length = m.length := List.length_insertionSort _ m
  rw [hc] at h2
  exact List.eq_nil_of_length_eq_zero h2.symm

namespace Violations

/-- Acceptance case: non-empty missing set, changed signature, cooldown
strictly exceeded. -/
lemma update_strikes_accept (w : Worker) (m : List Item) (now cooldown : ℚ)
    (hm : m ≠ []) (hnew : pySorted m ≠ w.last_violation)
    (hcd : now - w.last_strike_time > cooldown) :
    update_strikes w m now cooldown =
      ({ strikes := w.strikes + 1, last_violation := pySorted m,
         last_strike_time := now }, true) := by
  have hlen : m.length > 0 := List.length_pos.mpr hm
  unfold update_strikes
  rw [if_pos ⟨hlen, hnew, hcd⟩]

/-- Rejection case with a non-empty missing set: the worker record is
returned untouched. -/
lemma update_strikes_reject (w : Worker) (m : List Item) (now cooldown : ℚ)
    (hm : m ≠ [])
    (h : ¬ (pySorted m ≠ w.last_violation ∧ now - w.last_strike_time > cooldown)) :
    update_strikes w m now cooldown = (w, false) := by
  have hlen : m.length > 0 := List.length_pos.mpr hm
  unfold update_strikes
  rw [if_neg (fun hc => h ⟨hc.2.1, hc.2.2⟩), if_neg (by simpa using hm)]

/-- Empty missing set: the signature is cleared and nothing else changes. -/
lemma update_strikes_nil (w : Worker) (now cooldown : ℚ) :
    update_strikes w [] now cooldown = ({ w with last_violation := [] }, false) := by
  unfold update_strikes
  rw [if_neg (by simp), if_pos (by simp)]

/-- One step changes the strike count by exactly the returned flag. -/
lemma update_strikes_strikes_eq (w : Worker) (m : List Item) (now cooldown : ℚ) :
    (update_strikes w m now cooldown).1.strikes =
      if (update_strikes w m now cooldown).2 = true then w.strikes + 1
      else w.strikes := by
  unfold update_strikes
  dsimp only
  split
  · rfl
  · split <;> rfl

/-- One step never decreases the strike count. -/
lemma strikes_le_update (w : Worker) (m : List Item) (now cooldown : ℚ) :
    w.strikes ≤ (update_strikes w m now cooldown).1.strikes := by
  rw [update_strikes_strikes_eq]
  split
  · omega
  · exact le_refl _

end Violations

/-! ## C1 — acceptance condition of `update_strikes` -/

/-- C1 (amended): for a non-empty missing set, `update_strikes` accepts a
strike iff the sorted candidate signature differs from the stored
last-violation signature AND strictly more than the cooldown has elapsed
since the last accepted strike (elapsed time exactly equal to the cooldown
is rejected); on acceptance the strike count grows by 1, the signature and
the last-strike timestamp are updated and `true` is returned; on rejection
the worker record is unchanged and `false` is returned. -/
theorem update_strikes_accept_iff (w : Worker) (m : List Item)
    (now cooldown : ℚ) (hm : m ≠ []) :
    ((Violations.update_strikes w m now cooldown).2 = true ↔
      (pySorted m ≠ w.last_violation ∧ now - w.last_strike_time > cooldown)) ∧
    ((Violations.update_strikes w m now cooldown).2 = true →
      (Violations.update_strikes w m now cooldown).1 =
        { strikes := w.strikes + 1, last_violation := pySorted m,
          last_strike_time := now }) ∧
    ((Violations.update_strikes w m now cooldown).2 = false →
      (Violations.update_strikes w m now cooldown).1 = w) := by
  by_cases hc : pySorted m ≠ w.last_violation ∧ now - w.last_strike_time > cooldown
  · rw [Violations.update_strikes_accept w m now cooldown hm hc.1 hc.2]
    exact ⟨by simpa using hc, fun _ => rfl, fun h => absurd h (by simp)⟩
  · rw [Violations.update_strikes_reject w m now cooldown hm hc]
    exact ⟨by simpa using hc, fun h => absurd h (by simp), fun _ => rfl⟩

/-- C1 counterexample: with the default cooldown 5, a worker whose last
strike was at time 0 and a changed, non-empty signature at time 5 — so
"at least the cooldown duration has elapsed" (5 - 0 ≥ 5) — is still
rejected, because the source requires `now - last_strike_time > cooldown`
strictly. -/
theorem update_strikes_cooldown_boundary_cex :
    Violations.update_strikes ⟨0, [], 0⟩ [Item.Vest] 5 5 = (⟨0, [], 0⟩, false)
    ∧ pySorted [Item.Vest] ≠ ([] : List Item)
    ∧ (5 : ℚ) - 0 ≥ 5 := by
  refine ⟨?_, by decide, by norm_num⟩
  apply Violations.update_strikes_reject _ _ _ _ (by decide)
  intro h
  have h2 := h.2
  norm_num at h2

/-- C1 witness: the amended theorem applied to a fresh worker, missing set
`[Vest]`, time 6, cooldown 5. -/
theorem update_strikes_accept_iff_witness :
    [Item.Vest] ≠ ([] : List Item) ∧
    (((Violations.update_strikes ⟨0, [], 0⟩ [Item.Vest] 6 5).2 = true ↔
        (pySorted [Item.Vest] ≠ (Worker.mk 0 [] 0).last_violation ∧
          (6 : ℚ) - (Worker.mk 0 [] 0).last_strike_time > 5)) ∧
      ((Violations.update_strikes ⟨0, [], 0⟩ [Item.Vest] 6 5).2 = true →
        (Violations.update_strikes ⟨0, [], 0⟩ [Item.Vest] 6 5).1 =
          { strikes := (Worker.mk 0 [] 0).strikes + 1,
            last_violation := pySorted [Item.Vest],
            last_strike_time := 6 }) ∧
      ((Violations.update_strikes ⟨0, [], 0⟩ [Item.Vest] 6 5).2 = false →
        (Violations.update_strikes ⟨0, [], 0⟩ [Item.Vest] 6 5).1 =
          ⟨0, [], 0⟩)) :=
  ⟨by decide, update_strikes_accept_iff ⟨0, [], 0⟩ [Item.Vest] 6 5 (by decide)⟩

/-! ## C2 — empty missing set clears the signature -/

/-- C2: an empty missing set unconditionally clears the stored
last-violation signature, accepts no strike and leaves strike count and
last-strike timestamp unchanged; a later non-empty missing set — in
particular one identical to the pre-clearance signature — is then accepted
as a new violation episode as soon as the cooldown gate passes. -/
theorem empty_missing_clears_signature (w : Worker) (now cooldown : ℚ)
    (m : List Item) (now2 : ℚ) (hm : m ≠ [])
    (hcd : now2 - w.last_strike_time > cooldown) :
    Violations.update_strikes w [] now cooldown =
      ({ w with last_violation := [] }, false) ∧
    (Violations.update_strikes { w with last_violation := [] } m now2
        cooldown).2 = true := by
  refine ⟨Violations.update_strikes_nil w now cooldown, ?_⟩
  rw [Violations.update_strikes_accept { w with last_violation := [] } m now2
    cooldown hm (pySorted_ne_nil hm) hcd]

/-- C2 witness: a worker with stored signature `[Vest]` struck at time 0,
an empty frame at time 1, then `[Vest]` again at time 6 with cooldown 5. -/
theorem empty_missing_clears_signature_witness :
    [Item.Vest] ≠ ([] : List Item) ∧
    (6 : ℚ) - (Worker.mk 2 [Item.Vest] 0).last_strike_time > 5 ∧
    (Violations.update_strikes ⟨2, [Item.Vest], 0⟩ [] 1 5 =
      ({ Worker.mk 2 [Item.Vest] 0 with last_violation := [] }, false) ∧
    (Violations.update_strikes
        { Worker.mk 2 [Item.Vest] 0 with last_violation := [] }
        [Item.Vest] 6 5).2 = true) :=
  ⟨by decide, by norm_num,
    empty_missing_clears_signature ⟨2, [Item.Vest], 0⟩ 1 5 [Item.Vest] 6
      (by decide) (by norm_num)⟩

/-! ## C3 — strike count monotonicity and reset -/

/-- C3: across any sequence of evaluation ticks the strike count never
decreases; each single `update_strikes` step changes it by exactly 1 when
the strike is accepted and by 0 otherwise; `reset_worker` returns it
to 0. -/
theorem strikes_monotone_and_reset (w : Worker)
    (ticks : List (List Item × ℚ)) (cooldown : ℚ) :
    w.strikes ≤ (Violations.run_ticks w ticks cooldown).strikes ∧
    (∀ m now, (Violations.update_strikes w m now cooldown).1.strikes =
      if (Violations.update_strikes w m now cooldown).2 = true then
        w.strikes + 1
      else w.strikes) ∧
    (Violations.reset_worker w).strikes = 0 := by
  refine ⟨?_, fun m now => Violations.update_strikes_strikes_eq w m now cooldown,
    rfl⟩
  induction ticks generalizing w with
  | nil => exact le_refl _
  | cons t rest ih =>
    calc w.strikes
        ≤ (Violations.update_strikes w t.1 t.2 cooldown).1.strikes :=
          Violations.strikes_le_update w t.1 t.2 cooldown
      _ ≤ (Violations.run_ticks
            (Violations.update_strikes w t.1 t.2 cooldown).1 rest
            cooldown).strikes :=
          ih (Violations.update_strikes w t.1 t.2 cooldown).1

/-! ## C4 — no equipment detections -/

/-- C4: with no equipment detections the detected gear set is empty and the
missing set is exactly the full required list
`[Vest, Gloves, Shoes, Headgear]`, for every person box. -/
theorem no_detections_full_missing (p : Box) (cs : List Int) :
    PPE.get_missing_gear p [] cs =
      [Item.Vest, Item.Gloves, Item.Shoes, Item.Headgear] ∧
    PPE.detected_gear p (([] : List Box).zip cs) = [] := by
  constructor <;> rfl

/-! ## C5 — helmet association rule -/

/-- C5: for class 1 or 2 (Helmet / WeldingHelmet), association holds iff
the item center's x lies within the person's horizontal extent and its y
between the person's top edge and one-third of the person's height below
it; an associated helmet satisfies Headgear (absent from the missing set),
and the same box with center below the top third is not associated via the
helmet rule and leaves Headgear missing. -/
theorem helmet_association_rule (p i : Box) (c : Int)
    (hc : c = 1 ∨ c = 2) :
    (PPE.is_associated p i c ↔
      (p.x1 ≤ (i.x1 + i.x2) / 2 ∧ (i.x1 + i.x2) / 2 ≤ p.x2 ∧
        p.y1 ≤ (i.y1 + i.y2) / 2 ∧
        (i.y1 + i.y2) / 2 ≤ p.y1 + (p.y2 - p.y1) / 3)) ∧
    (PPE.is_associated p i 1 →
      Item.Headgear ∉ PPE.get_missing_gear p [i] [1]) ∧
    ((i.y1 + i.y2) / 2 > p.y1 + (p.y2 - p.y1) / 3 →
      ¬ PPE.is_associated p i 1 ∧
        Item.Headgear ∈ PPE.get_missing_gear p [i] [1]) := by
  refine ⟨?_, ?_, ?_⟩
  · unfold PPE.is_associated
    rw [if_pos hc]
    constructor
    · rintro ⟨h1, h2, h3, h4⟩
      exact ⟨h3, h4, h1, h2⟩
    · rintro ⟨h1, h2, h3, h4⟩
      exact ⟨h3, h4, h1, h2⟩
  · intro h
    simp [PPE.get_missing_gear, PPE.detected_gear, PPE.missing_from,
      PPE.class_mapping, h]
  · intro hgt
    have hna : ¬ PPE.is_associated p i 1 := by
      unfold PPE.is_associated
      rw [if_pos (Or.inl rfl)]
      rintro ⟨h1, h2, h3, h4⟩
      exact absurd h2 (not_le.mpr hgt)
    refine ⟨hna, ?_⟩
    simp [PPE.get_missing_gear, PPE.detected_gear, PPE.missing_from, hna]

/-- C5 witness: person box (0,0,10,30), helmet box (4,0,6,2) — center
(5,1) sits in the top third — with class 1. -/
theorem helmet_association_rule_witness :
    ((1 : Int) = 1 ∨ (1 : Int) = 2) ∧
    ((PPE.is_associated ⟨0, 0, 10, 30⟩ ⟨4, 0, 6, 2⟩ 1 ↔
      ((0 : ℚ) ≤ ((4 : ℚ) + 6) / 2 ∧ ((4 : ℚ) + 6) / 2 ≤ 10 ∧
        (0 : ℚ) ≤ ((0 : ℚ) + 2) / 2 ∧
        ((0 : ℚ) + 2) / 2 ≤ 0 + ((30 : ℚ) - 0) / 3)) ∧
    (PPE.is_associated ⟨0, 0, 10, 30⟩ ⟨4, 0, 6, 2⟩ 1 →
      Item.Headgear ∉ PPE.get_missing_gear ⟨0, 0, 10, 30⟩ [⟨4, 0, 6, 2⟩] [1]) ∧
    (((0 : ℚ) + 2) / 2 > 0 + ((30 : ℚ) - 0) / 3 →
      ¬ PPE.is_associated ⟨0, 0, 10, 30⟩ ⟨4, 0, 6, 2⟩ 1 ∧
        Item.Headgear ∈ PPE.get_missing_gear ⟨0, 0, 10, 30⟩ [⟨4, 0, 6, 2⟩] [1])) :=
  ⟨Or.inl rfl, helmet_association_rule ⟨0, 0, 10, 30⟩ ⟨4, 0, 6, 2⟩ 1 (Or.inl rfl)⟩

/-! ## C6 — violation events require a non-empty missing set -/

/-- C6: `update_strikes` returns true only for a non-empty missing set, and
the live-monitor tick creates a violation record only when `update_strikes`
returned true — hence every created record corresponds to a non-empty
missing set. -/
theorem violation_event_requires_missing (w : Worker) (m : List Item)
    (now cooldown : ℚ) (wid : Int) (ev : Option String) (ts : String) :
    ((Violations.update_strikes w m now cooldown).2 = true → m ≠ []) ∧
    (∀ r, (monitor_tick w m now cooldown wid ev ts).2 = some r →
      (Violations.update_strikes w m now cooldown).2 = true ∧ m ≠ []) := by
  have hmain : (Violations.update_strikes w m now cooldown).2 = true →
      m ≠ [] := by
    intro htrue hm
    rw [hm, Violations.update_strikes_nil w now cooldown] at htrue
    exact Bool.false_ne_true htrue
  refine ⟨hmain, fun r hr => ?_⟩
  unfold monitor_tick at hr
  by_cases hb : (Violations.update_strikes w m now cooldown).2 = true
  · exact ⟨hb, hmain hb⟩
  · rw [if_neg hb] at hr
    exact absurd hr (by simp)

/-- C6 witness: a fresh worker, missing set `[Vest]`, time 6, cooldown 5,
worker id 7 — the tick produces a record, so the strike was accepted and
the missing set is non-empty. -/
theorem violation_event_requires_missing_witness :
    (Violations.update_strikes ⟨0, [], 0⟩ [Item.Vest] 6 5).2 = true ∧
    [Item.Vest] ≠ ([] : List Item) :=
  (violation_event_requires_missing ⟨0, [], 0⟩ [Item.Vest] 6 5 7 none "t").2
    (record_violation 7 [Item.Vest] 1 none "t")
    (by
      have hu : Violations.update_strikes ⟨0, [], 0⟩ [Item.Vest] 6 5 =
          ({ strikes := 1, last_violation := pySorted [Item.Vest],
             last_strike_time := 6 }, true) :=
        Violations.update_strikes_accept ⟨0, [], 0⟩ [Item.Vest] 6 5
          (by decide) (by decide) (by norm_num)
      simp [monitor_tick, hu])

/-! ## C7 — fired status is derived from the strike count -/

/-- C7: `is_fired` returns true exactly when the strike count reaches the
maximum, `get_worker_status` reports exactly that derived value (no stored
flag), and with the default maximum 15 a count of 15 is fired while 14 is
not. -/
theorem is_fired_derived :
    (∀ s m : Int, Violations.is_fired s m = true ↔ s ≥ m) ∧
    (∀ (w : Worker) (mi : List Item) (ms : Int),
      (Violations.get_worker_status w mi ms).2.2 =
        Violations.is_fired w.strikes ms) ∧
    Violations.is_fired 15 15 = true ∧
    Violations.is_fired 14 15 = false := by
  refine ⟨fun s m => by simp [Violations.is_fired], fun w mi ms => ?_,
    by decide, by decide⟩
  unfold Violations.get_worker_status Violations.is_fired
  by_cases h : w.strikes ≥ ms
  · rw [if_pos h]
    simp [h]
  · rw [if_neg h]
    by_cases h2 : mi.length > 0
    · rw [if_pos h2]
      simp [h]
    · rw [if_neg h2]
      simp [h]

/-! ## C8 — legacy versus backend missing-gear derivation -/

/-- C8 counterexample: person box (0,0,10,10) and one class-4 (Vest)
detection with box (4,0,6,2), center (5,1). The legacy uniform
center-inside rule associates it (vest detected), the backend torso band
[y1 + 0.2·h, y1 + 0.7·h] = [2,7] rejects center y = 1 — the two
MissingSets differ. -/
theorem legacy_backend_disagree_cex :
    Legacy.get_missing_gear ⟨0, 0, 10, 10⟩ [⟨4, 0, 6, 2⟩] [4] =
      [Item.Gloves, Item.Shoes, Item.Headgear] ∧
    PPE.get_missing_gear ⟨0, 0, 10, 10⟩ [⟨4, 0, 6, 2⟩] [4] =
      [Item.Vest, Item.Gloves, Item.Shoes, Item.Headgear] ∧
    Legacy.get_missing_gear ⟨0, 0, 10, 10⟩ [⟨4, 0, 6, 2⟩] [4] ≠
      PPE.get_missing_gear ⟨0, 0, 10, 10⟩ [⟨4, 0, 6, 2⟩] [4] := by
  have h1 : Legacy.get_missing_gear ⟨0, 0, 10, 10⟩ [⟨4, 0, 6, 2⟩] [4] =
      [Item.Gloves, Item.Shoes, Item.Headgear] := by
    norm_num [Legacy.get_missing_gear, Legacy.legacy_detected_gear,
      Legacy.legacy_missing_from, List.zip]
    decide
  have h2 : PPE.get_missing_gear ⟨0, 0, 10, 10⟩ [⟨4, 0, 6, 2⟩] [4] =
      [Item.Vest, Item.Gloves, Item.Shoes, Item.Headgear] := by
    have hna : ¬ PPE.is_associated ⟨0, 0, 10, 10⟩ ⟨4, 0, 6, 2⟩ 4 := by
      unfold PPE.is_associated
      norm_num
    norm_num [PPE.get_missing_gear, PPE.detected_gear, PPE.missing_from,
      List.zip, hna]
  refine ⟨h1, h2, ?_⟩
  rw [h1, h2]
  decide

/-- C8 (amended): the two derivations agree whenever the two association
procedures produce the same detected-gear list — in particular when no
equipment detections are supplied — but not in general. -/
theorem legacy_backend_agree (p : Box) (bs : List Box) (cs : List Int)
    (h : Legacy.legacy_detected_gear p (bs.zip cs) =
      PPE.detected_gear p (bs.zip cs)) :
    Legacy.get_missing_gear p bs cs = PPE.get_missing_gear p bs cs := by
  unfold Legacy.get_missing_gear PPE.get_missing_gear
  rw [h]
  rfl

/-- C8 witness: the amended theorem applied with no equipment detections. -/
theorem legacy_backend_agree_witness :
    Legacy.legacy_detected_gear ⟨0, 0, 1, 1⟩ (([] : List Box).zip []) =
      PPE.detected_gear ⟨0, 0, 1, 1⟩ (([] : List Box).zip []) ∧
    Legacy.get_missing_gear ⟨0, 0, 1, 1⟩ [] [] =
      PPE.get_missing_gear ⟨0, 0, 1, 1⟩ [] [] :=
  ⟨rfl, legacy_backend_agree ⟨0, 0, 1, 1⟩ [] [] rfl⟩

/-! ## C9 — unknown class ids never change the missing set -/

/-- The missing-list construction only queries membership of the six named
gear labels. -/
lemma missing_from_congr {d1 d2 : List Gear}
    (hV : Gear.Vest ∈ d1 ↔ Gear.Vest ∈ d2)
    (hG : Gear.Gloves ∈ d1 ↔ Gear.Gloves ∈ d2)
    (hS : Gear.Shoes ∈ d1 ↔ Gear.Shoes ∈ d2)
    (hH : Gear.Helmet ∈ d1 ↔ Gear.Helmet ∈ d2)
    (hW : Gear.WeldingHelmet ∈ d1 ↔ Gear.WeldingHelmet ∈ d2)
    (hGo : Gear.Goggles ∈ d1 ↔ Gear.Goggles ∈ d2) :
    PPE.missing_from d1 = PPE.missing_from d2 := by
  unfold PPE.missing_from
  rw [if_congr hV rfl rfl, if_congr hG rfl rfl, if_congr hS rfl rfl,
    if_congr (or_congr hH (or_congr hW hGo)) rfl rfl]

/-- For a class id outside 1–6 the dict lookup falls back to the
synthesised label. -/
lemma class_mapping_unknown {c : Int}
    (hc : c ∉ ([1, 2, 3, 4, 5, 6] : List Int)) :
    PPE.class_mapping c = Gear.ClassOther c := by
  simp only [List.mem_cons, List.not_mem_nil, or_false, not_or] at hc
  obtain ⟨h1, h2, h3, h4, h5, h6⟩ := hc
  simp [PPE.class_mapping, h1, h2, h3, h4, h5, h6]

/-- Inserting a detection labelled `ClassOther` changes no named-gear
membership of the detected set. -/
lemma detected_gear_insert_other (p : Box) (A B : List (Box × Int))
    (b : Box) (c : Int) (hc : c ∉ ([1, 2, 3, 4, 5, 6] : List Int))
    (g : Gear) (hg : ∀ c', g ≠ Gear.ClassOther c') :
    (g ∈ PPE.detected_gear p (A ++ (b, c) :: B) ↔
      g ∈ PPE.detected_gear p (A ++ B)) := by
  simp only [PPE.detected_gear, List.filterMap_append, List.mem_append]
  constructor
  · rintro (hA | hB)
    · exact Or.inl hA
    · right
      rcases List.mem_filterMap.mp hB with ⟨pr, hpr, hsome⟩
      rcases List.mem_cons.mp hpr with hbc | hB2
      · exfalso
        subst hbc
        by_cases ha : PPE.is_associated p b c
        · rw [if_pos ha, class_mapping_unknown hc] at hsome
          exact hg c (Option.some_injective _ hsome).symm
        · rw [if_neg ha] at hsome
          cases hsome
      · exact List.mem_filterMap.mpr ⟨pr, hB2, hsome⟩
  · rintro (hA | hB)
    · exact Or.inl hA
    · right
      rcases List.mem_filterMap.mp hB with ⟨pr, hpr, hsome⟩
      exact List.mem_filterMap.mpr ⟨pr, List.mem_cons_of_mem _ hpr, hsome⟩

/-- C9: a detection whose class id lies outside 1–6 leaves the missing set
of `get_missing_gear` exactly as if that detection were removed, wherever
it sits in the detection list. -/
theorem unknown_class_no_effect (p : Box) (bs1 bs2 : List Box)
    (cs1 cs2 : List Int) (b : Box) (c : Int)
    (hlen : bs1.length = cs1.length)
    (hc : c ∉ ([1, 2, 3, 4, 5, 6] : List Int)) :
    PPE.get_missing_gear p (bs1 ++ b :: bs2) (cs1 ++ c :: cs2) =
      PPE.get_missing_gear p (bs1 ++ bs2) (cs1 ++ cs2) := by
  have hzip1 : (bs1 ++ b :: bs2).zip (cs1 ++ c :: cs2) =
      bs1.zip cs1 ++ (b, c) :: bs2.zip cs2 := by
    rw [List.zip_append hlen]
    rfl
  have hzip2 : (bs1 ++ bs2).zip (cs1 ++ cs2) =
      bs1.zip cs1 ++ bs2.zip cs2 := List.zip_append hlen
  unfold PPE.get_missing_gear
  rw [hzip1, hzip2]
  exact missing_from_congr
    (detected_gear_insert_other p _ _ b c hc Gear.Vest (fun c' => by simp))
    (detected_gear_insert_other p _ _ b c hc Gear.Gloves (fun c' => by simp))
    (detected_gear_insert_other p _ _ b c hc Gear.Shoes (fun c' => by simp))
    (detected_gear_insert_other p _ _ b c hc Gear.Helmet (fun c' => by simp))
    (detected_gear_insert_other p _ _ b c hc Gear.WeldingHelmet (fun c' => by simp))
    (detected_gear_insert_other p _ _ b c hc Gear.Goggles (fun c' => by simp))

/-- C9 witness: one class-0 detection covering the whole person box is
dropped — the missing set equals that of an empty detection list. -/
theorem unknown_class_no_effect_witness :
    ([] : List Box).length = ([] : List Int).length ∧
    (0 : Int) ∉ ([1, 2, 3, 4, 5, 6] : List Int) ∧
    PPE.get_missing_gear ⟨0, 0, 1, 1⟩ ([] ++ ⟨0, 0, 1, 1⟩ :: []) ([] ++ 0 :: []) =
      PPE.get_missing_gear ⟨0, 0, 1, 1⟩ ([] ++ []) ([] ++ []) :=
  ⟨rfl, by decide,
    unknown_class_no_effect ⟨0, 0, 1, 1⟩ [] [] [] [] ⟨0, 0, 1, 1⟩ 0 rfl
      (by decide)⟩

/-! ## C10 — totality and bounds of `calculate_iou` -/

/-- The clamped intersection area is never negative. -/
lemma inter_area_nonneg (b1 b2 : Box) : 0 ≤ PPE.inter_area b1 b2 := by
  unfold PPE.inter_area
  exact mul_nonneg (le_max_left 0 _) (le_max_left 0 _)

/-- For well-formed boxes the intersection area is at most the first
box's area. -/
lemma inter_area_le_area1 (b1 b2 : Box)
    (hx : b1.x1 ≤ b1.x2) (hy : b1.y1 ≤ b1.y2) :
    PPE.inter_area b1 b2 ≤ (b1.x2 - b1.x1) * (b1.y2 - b1.y1) := by
  unfold PPE.inter_area
  have hw : max 0 (min b1.x2 b2.x2 - max b1.x1 b2.x1) ≤ b1.x2 - b1.x1 :=
    max_le (by linarith)
      (sub_le_sub (min_le_left _ _) (le_max_left _ _))
  have hh : max 0 (min b1.y2 b2.y2 - max b1.y1 b2.y1) ≤ b1.y2 - b1.y1 :=
    max_le (by linarith)
      (sub_le_sub (min_le_left _ _) (le_max_left _ _))
  exact mul_le_mul hw hh (le_max_left 0 _) (by linarith)

/-- For well-formed boxes the intersection area is at most the second
box's area. -/
lemma inter_area_le_area2 (b1 b2 : Box)
    (hx : b2.x1 ≤ b2.x2) (hy : b2.y1 ≤ b2.y2) :
    PPE.inter_area b1 b2 ≤ (b2.x2 - b2.x1) * (b2.y2 - b2.y1) := by
  unfold PPE.inter_area
  have hw : max 0 (min b1.x2 b2.x2 - max b1.x1 b2.x1) ≤ b2.x2 - b2.x1 :=
    max_le (by linarith)
      (sub_le_sub (min_le_right _ _) (le_max_right _ _))
  have hh : max 0 (min b1.y2 b2.y2 - max b1.y1 b2.y1) ≤ b2.y2 - b2.y1 :=
    max_le (by linarith)
      (sub_le_sub (min_le_right _ _) (le_max_right _ _))
  exact mul_le_mul hw hh (le_max_left 0 _) (by linarith)

/-- C10: `calculate_iou` returns 0 whenever the computed union is not
positive (the division is guarded), and for every pair of well-formed
boxes the result lies in [0, 1]. -/
theorem calculate_iou_guard_and_bounds :
    (∀ b1 b2 : Box, ¬ PPE.union_area b1 b2 > 0 →
      PPE.calculate_iou b1 b2 = 0) ∧
    (∀ b1 b2 : Box, b1.x1 ≤ b1.x2 → b1.y1 ≤ b1.y2 →
      b2.x1 ≤ b2.x2 → b2.y1 ≤ b2.y2 →
      0 ≤ PPE.calculate_iou b1 b2 ∧ PPE.calculate_iou b1 b2 ≤ 1) := by
  constructor
  · intro b1 b2 h
    unfold PPE.calculate_iou
    rw [if_neg h]
  · intro b1 b2 hx1 hy1 hx2 hy2
    have hi0 : 0 ≤ PPE.inter_area b1 b2 := inter_area_nonneg b1 b2
    have hi1 : PPE.inter_area b1 b2 ≤ (b1.x2 - b1.x1) * (b1.y2 - b1.y1) :=
      inter_area_le_area1 b1 b2 hx1 hy1
    have hi2 : PPE.inter_area b1 b2 ≤ (b2.x2 - b2.x1) * (b2.y2 - b2.y1) :=
      inter_area_le_area2 b1 b2 hx2 hy2
    unfold PPE.calculate_iou
    by_cases hu : PPE.union_area b1 b2 > 0
    · rw [if_pos hu]
      constructor
      · exact div_nonneg hi0 (le_of_lt hu)
      · rw [div_le_one hu]
        have : PPE.union_area b1 b2 =
            (b1.x2 - b1.x1) * (b1.y2 - b1.y1)
              + (b2.x2 - b2.x1) * (b2.y2 - b2.y1)
              - PPE.inter_area b1 b2 := rfl
        linarith
    · rw [if_neg hu]
      norm_num

/-- C10 witness: a degenerate pair with union 0 returns 0, and the pair
(0,0,2,2), (1,1,3,3) has an IoU inside [0, 1]. -/
theorem calculate_iou_guard_and_bounds_witness :
    PPE.calculate_iou ⟨0, 0, 0, 0⟩ ⟨0, 0, 0, 0⟩ = 0 ∧
    (0 ≤ PPE.calculate_iou ⟨0, 0, 2, 2⟩ ⟨1, 1, 3, 3⟩ ∧
      PPE.calculate_iou ⟨0, 0, 2, 2⟩ ⟨1, 1, 3, 3⟩ ≤ 1) :=
  ⟨calculate_iou_guard_and_bounds.1 ⟨0, 0, 0, 0⟩ ⟨0, 0, 0, 0⟩
      (by norm_num [PPE.union_area, PPE.inter_area]),
    calculate_iou_guard_and_bounds.2 ⟨0, 0, 2, 2⟩ ⟨1, 1, 3, 3⟩
      (by norm_num) (by norm_num) (by norm_num) (by norm_num)⟩
